import Mathlib

/-
Verification of the lazy-expression-engine parts of the ETL tensor library:
shallow embedding of the temporary-expression lifecycle
(include/etl/expr/temporary_expr.hpp), the repeat transformers and their
trait specializations (rep_r_transformer, rep_l_transformer,
dyn_rep_r_transformer, dyn_rep_l_transformer and the etl_traits
specializations for all of these).

Machine data is modelled with value semantics: a sub-expression is a flat
read function Nat -> alpha together with its flat size, assertion failures
(cpp_assert) surface as Option.none, and the forced/unforced result slot of
a temporary expression is an explicit two-constructor inductive mirroring
the Forced template parameter.
-/

namespace Etl

/-- Storage order of an expression, mirroring the C++ enum class order
(row-major or column-major). -/
inductive Order where
  | row_major
  | column_major
deriving DecidableEq, Repr

/-- Vector width classes, mirroring enum class vector_mode_t from the
configuration header (NONE, SSE3, AVX). -/
inductive VectorMode where
  | vnone
  | sse3
  | avx
deriving DecidableEq, Repr

/-- The trait descriptor computed per expression type by the etl_traits
specializations: the boolean capability record plus storage order and the
per-width vectorizability certification. -/
structure Traits where
  is_etl : Bool
  is_transformer : Bool
  is_fast : Bool
  is_linear : Bool
  is_generator : Bool
  needs_temporary_visitor : Bool
  needs_evaluator_visitor : Bool
  storage_order : Order
  vectorizable : VectorMode → Bool

/-- The etl_traits specialization for temporary_unary_expr: fast iff the
operand is fast, linear, not a generator, needs both visitor passes,
storage order inherited from the operand, and vectorizable is the alias
template std::true_type, i.e. unconditionally true. -/
def temporary_unary_traits (ta : Traits) : Traits where
  is_etl := true
  is_transformer := false
  is_fast := ta.is_fast
  is_linear := true
  is_generator := false
  needs_temporary_visitor := true
  needs_evaluator_visitor := true
  storage_order := ta.storage_order
  vectorizable := fun _ => true

/-- The etl_traits specialization for temporary_binary_expr: fast iff both
operands are fast; storage order is b's order when a is a generator and a's
order otherwise; vectorizable is std::true_type, i.e. unconditionally
true. -/
def temporary_binary_traits (ta tb : Traits) : Traits where
  is_etl := true
  is_transformer := false
  is_fast := ta.is_fast && tb.is_fast
  is_linear := true
  is_generator := false
  needs_temporary_visitor := true
  needs_evaluator_visitor := true
  storage_order := if ta.is_generator then tb.storage_order else ta.storage_order
  vectorizable := fun _ => true

/-- The etl_traits specialization for rep_r_transformer: a transformer,
fast iff the sub-expression is fast, not linear, visitor needs and storage
order inherited from the sub-expression, and vectorizable is the alias
template std::false_type, i.e. unconditionally false. -/
def rep_r_traits (ts : Traits) : Traits where
  is_etl := true
  is_transformer := true
  is_fast := ts.is_fast
  is_linear := false
  is_generator := false
  needs_temporary_visitor := ts.needs_temporary_visitor
  needs_evaluator_visitor := ts.needs_evaluator_visitor
  storage_order := ts.storage_order
  vectorizable := fun _ => false

/-- The etl_traits specialization for rep_l_transformer: same shape as the
rep_r specialization (vectorizable is std::false_type). -/
def rep_l_traits (ts : Traits) : Traits where
  is_etl := true
  is_transformer := true
  is_fast := ts.is_fast
  is_linear := false
  is_generator := false
  needs_temporary_visitor := ts.needs_temporary_visitor
  needs_evaluator_visitor := ts.needs_evaluator_visitor
  storage_order := ts.storage_order
  vectorizable := fun _ => false

/-- The etl_traits specialization for dyn_rep_r_transformer: never fast
(repeat counts are run-time values), vectorizable is std::false_type. -/
def dyn_rep_r_traits (ts : Traits) : Traits where
  is_etl := true
  is_transformer := true
  is_fast := false
  is_linear := false
  is_generator := false
  needs_temporary_visitor := ts.needs_temporary_visitor
  needs_evaluator_visitor := ts.needs_evaluator_visitor
  storage_order := ts.storage_order
  vectorizable := fun _ => false

/-- The etl_traits specialization for dyn_rep_l_transformer: never fast,
vectorizable is std::false_type. -/
def dyn_rep_l_traits (ts : Traits) : Traits where
  is_etl := true
  is_transformer := true
  is_fast := false
  is_linear := false
  is_generator := false
  needs_temporary_visitor := ts.needs_temporary_visitor
  needs_evaluator_visitor := ts.needs_evaluator_visitor
  storage_order := ts.storage_order
  vectorizable := fun _ => false

/-! ## Repeat transformers

A sub-expression is embedded as its flat read function Nat -> alpha together
with its flat element count subSize, which is what size(sub) returns. -/

/-- The compile-time product mul_all of a template pack of repeat counts. -/
def mul_all (reps : List Nat) : Nat :=
  reps.foldr (fun a b => a * b) 1

/-- The static rep_r_transformer: repeats the sub-expression along new
trailing (right) dimensions given by the template pack D.... -/
structure RepRTransformer (α : Type) where
  subSize : Nat
  sub : Nat → α
  reps : List Nat

/-- Flat read of rep_r_transformer (operator[] and read_flat): returns
sub[i / mul_all of the repeat pack]. -/
def RepRTransformer.read (t : RepRTransformer α) (i : Nat) : α :=
  t.sub (i / mul_all t.reps)

/-- Size of a rep_r_transformer per its etl_traits specialization:
mul_all of the repeat pack times the size of the sub-expression. -/
def RepRTransformer.size (t : RepRTransformer α) : Nat :=
  mul_all t.reps * t.subSize

/-- The static rep_l_transformer: repeats the sub-expression along new
leading (left) dimensions given by the template pack D.... -/
structure RepLTransformer (α : Type) where
  subSize : Nat
  sub : Nat → α
  reps : List Nat

/-- Flat read of rep_l_transformer (operator[] and read_flat): returns
sub[i mod size(sub)]. -/
def RepLTransformer.read (t : RepLTransformer α) (i : Nat) : α :=
  t.sub (i % t.subSize)

/-- Size of a rep_l_transformer per its etl_traits specialization:
mul_all of the repeat pack times the size of the sub-expression. -/
def RepLTransformer.size (t : RepLTransformer α) : Nat :=
  mul_all t.reps * t.subSize

/-- Flattening a rep_l_transformer: the sequence of flat reads over its
whole expanded index space. -/
def RepLTransformer.flatten (t : RepLTransformer α) : List α :=
  (List.range t.size).map t.read

/-- The dynamic dyn_rep_r_transformer: stores the run-time repeat counts
and the cached product m computed by std::accumulate (a left fold starting
from 1) at construction. -/
structure DynRepRTransformer (α : Type) where
  subSize : Nat
  sub : Nat → α
  reps : List Nat
  m : Nat

/-- Constructor of dyn_rep_r_transformer: caches m as the std::accumulate
left-fold product of the repeat counts. -/
def DynRepRTransformer.make (subSize : Nat) (sub : Nat → α) (reps : List Nat) :
    DynRepRTransformer α :=
  ⟨subSize, sub, reps, reps.foldl (fun a b => a * b) 1⟩

/-- Flat read of dyn_rep_r_transformer (operator[] and read_flat):
returns sub[i / m]. -/
def DynRepRTransformer.read (t : DynRepRTransformer α) (i : Nat) : α :=
  t.sub (i / t.m)

/-- Size of a dyn_rep_r_transformer per its etl_traits specialization:
v.m times the size of the sub-expression. -/
def DynRepRTransformer.size (t : DynRepRTransformer α) : Nat :=
  t.m * t.subSize

/-- The dynamic dyn_rep_l_transformer: stores the run-time repeat counts
and the cached product m at construction. -/
structure DynRepLTransformer (α : Type) where
  subSize : Nat
  sub : Nat → α
  reps : List Nat
  m : Nat

/-- Constructor of dyn_rep_l_transformer: caches m as the std::accumulate
left-fold product of the repeat counts. -/
def DynRepLTransformer.make (subSize : Nat) (sub : Nat → α) (reps : List Nat) :
    DynRepLTransformer α :=
  ⟨subSize, sub, reps, reps.foldl (fun a b => a * b) 1⟩

/-- Flat read of dyn_rep_l_transformer (operator[] and read_flat):
returns sub[i mod size(sub)]. -/
def DynRepLTransformer.read (t : DynRepLTransformer α) (i : Nat) : α :=
  t.sub (i % t.subSize)

/-- Size of a dyn_rep_l_transformer per its etl_traits specialization:
v.m times the size of the sub-expression. -/
def DynRepLTransformer.size (t : DynRepLTransformer α) : Nat :=
  t.m * t.subSize

/-- Alias test of the abstract rep_transformer base: delegates to the
sub-expression's own alias test. Here aliasSub is the sub-expression's
alias function and the transformer's data is its sub function. -/
def rep_alias (aliasSub : (Nat → α) → ε → Bool) (sub : Nat → α) (rhs : ε) : Bool :=
  aliasSub sub rhs

/-! ## Temporary expressions

The Forced template parameter makes a temporary expression type either
unforced (Forced is void, the result slot is a std::shared_ptr that starts
null) or forced (the result slot holds the pre-bound destination directly).
The slot is modelled as a two-constructor inductive; cpp_assert failures
surface as Option.none in the operations that can assert. -/

/-- The data slot of a temporary expression: a null-or-filled shared
pointer in the unforced instantiation, the directly held destination in
the forced one. -/
inductive DataSlot (R : Type) where
  | unforced : Option R → DataSlot R
  | forced : R → DataSlot R
deriving DecidableEq, Repr

/-- Whether the slot belongs to the unforced instantiation, mirroring the
compile-time constant is_not_forced (Forced is void). -/
def DataSlot.is_not_forced : DataSlot R → Bool
  | .unforced _ => true
  | .forced _ => false

/-- get_result_op applied to the slot: dereference for unforced (none when
the shared pointer is null, which is undefined behaviour in the C++),
forward for forced. -/
def DataSlot.get? : DataSlot R → Option R
  | .unforced c => c
  | .forced c => some c

/-- The effect on the slot of Op::apply writing the value r into the
result storage designated by get_result_op. -/
def DataSlot.write (r : R) : DataSlot R → DataSlot R
  | .unforced _ => .unforced (some r)
  | .forced _ => .forced r

/-- The slot left behind in a moved-from expression by
optional_move applied in the move constructor: the unforced shared pointer
is moved away (becomes null); the forced slot is copied and keeps its
value. -/
def DataSlot.moved_from : DataSlot R → DataSlot R
  | .unforced _ => .unforced none
  | .forced c => .forced c

/-- State of a temporary_unary_expr: the operand a, the result slot c, and
the allocated and evaluated lifecycle flags. -/
structure TemporaryUnaryExpr (A R : Type) where
  a_mem : A
  c_mem : DataSlot R
  allocated : Bool
  evaluated : Bool
deriving DecidableEq, Repr

namespace TemporaryUnaryExpr

/-- The one-argument constructor temporary_unary_expr(AExpr a): unforced
slot default-constructed to a null shared pointer, both flags false. -/
def mk_plain (a : A) : TemporaryUnaryExpr A R :=
  ⟨a, .unforced none, false, false⟩

/-- The two-argument constructor temporary_unary_expr(AExpr a, Forced c)
of the forced instantiation: the destination is pre-bound and allocated is
set to true. -/
def mk_forced (a : A) (c : R) : TemporaryUnaryExpr A R :=
  ⟨a, .forced c, true, false⟩

/-- The copy constructor: copies operand, slot and both flags. -/
def copy_ctor (e : TemporaryUnaryExpr A R) : TemporaryUnaryExpr A R :=
  ⟨e.a_mem, e.c_mem, e.allocated, e.evaluated⟩

/-- The move constructor: returns the pair (moved-to, moved-from). The
moved-to instance takes the operand, the optional_move of the slot (which
keeps its value) and both flags; the constructor body then resets the
moved-from instance's evaluated flag to false, its slot being left in the
moved-from shape. -/
def move_ctor (e : TemporaryUnaryExpr A R) :
    TemporaryUnaryExpr A R × TemporaryUnaryExpr A R :=
  (⟨e.a_mem, e.c_mem, e.allocated, e.evaluated⟩,
   ⟨e.a_mem, e.c_mem.moved_from, e.allocated, false⟩)

/-- evaluate(): no-op if already evaluated, otherwise asserts the
allocated flag (none on assertion failure) and writes Op::apply of the
operand into the result storage, setting evaluated. The operator apply is
passed in as the pure function f. -/
def evaluate (f : A → R) (e : TemporaryUnaryExpr A R) :
    Option (TemporaryUnaryExpr A R) :=
  if e.evaluated then some e
  else if e.allocated then
    some ⟨e.a_mem, e.c_mem.write (f e.a_mem), e.allocated, true⟩
  else none

/-- allocate_temporary(): in the forced instantiation only sets
allocated; in the unforced one first fills the slot with
Op::allocate of the operand when the shared pointer is still null,
then sets allocated. The operator allocate rule is passed in as alloc. -/
def allocate_temporary (alloc : A → R) (e : TemporaryUnaryExpr A R) :
    TemporaryUnaryExpr A R :=
  match e.c_mem with
  | .forced c => ⟨e.a_mem, .forced c, true, e.evaluated⟩
  | .unforced none => ⟨e.a_mem, .unforced (some (alloc e.a_mem)), true, e.evaluated⟩
  | .unforced (some c) => ⟨e.a_mem, .unforced (some c), true, e.evaluated⟩

/-- result(): asserts the evaluated flag and the allocated flag (none on
assertion failure) and returns get_result_op applied to the slot. -/
def result (e : TemporaryUnaryExpr A R) : Option R :=
  if e.evaluated ∧ e.allocated then e.c_mem.get? else none

/-- alias(rhs): delegates to the operand's alias test, passed in as
aliasA. -/
def alias_test (aliasA : A → E → Bool) (e : TemporaryUnaryExpr A R) (rhs : E) : Bool :=
  aliasA e.a_mem rhs

/-- gpu_delegate_valid(): evaluated and allocated. -/
def gpu_delegate_valid (e : TemporaryUnaryExpr A R) : Bool :=
  e.evaluated && e.allocated

/-- direct_evaluate(r): overload resolution on the Forced parameter. The
overload enabled when Forced is not void (forced instantiation) runs
evaluate() and then assigns result() into the destination; the overload
enabled when Forced is void (unforced instantiation) runs Op::apply of the
operand straight into the destination. Returns the final state together
with the value left in the destination, none on assertion failure. -/
def direct_evaluate (f : A → R) (e : TemporaryUnaryExpr A R) :
    Option (TemporaryUnaryExpr A R × R) :=
  match e.c_mem with
  | .forced _ =>
    match e.evaluate f with
    | some e₂ =>
      match e₂.result with
      | some v => some (e₂, v)
      | none => none
    | none => none
  | .unforced _ => some (e, f e.a_mem)

end TemporaryUnaryExpr

/-- State of a temporary_binary_expr: the operands a and b, the result
slot c, and the allocated and evaluated lifecycle flags. -/
structure TemporaryBinaryExpr (A B R : Type) where
  a_mem : A
  b_mem : B
  c_mem : DataSlot R
  allocated : Bool
  evaluated : Bool
deriving DecidableEq, Repr

namespace TemporaryBinaryExpr

/-- The two-argument constructor temporary_binary_expr(AExpr a, BExpr b):
unforced slot default-constructed to a null shared pointer, both flags
false. -/
def mk_plain (a : A) (b : B) : TemporaryBinaryExpr A B R :=
  ⟨a, b, .unforced none, false, false⟩

/-- The three-argument constructor of the forced instantiation: the
destination is pre-bound and allocated is set to true. -/
def mk_forced (a : A) (b : B) (c : R) : TemporaryBinaryExpr A B R :=
  ⟨a, b, .forced c, true, false⟩

/-- The copy constructor: copies operands, slot and both flags. -/
def copy_ctor (e : TemporaryBinaryExpr A B R) : TemporaryBinaryExpr A B R :=
  ⟨e.a_mem, e.b_mem, e.c_mem, e.allocated, e.evaluated⟩

/-- The move constructor: returns the pair (moved-to, moved-from); the
moved-from instance's evaluated flag is reset to false. -/
def move_ctor (e : TemporaryBinaryExpr A B R) :
    TemporaryBinaryExpr A B R × TemporaryBinaryExpr A B R :=
  (⟨e.a_mem, e.b_mem, e.c_mem, e.allocated, e.evaluated⟩,
   ⟨e.a_mem, e.b_mem, e.c_mem.moved_from, e.allocated, false⟩)

/-- evaluate(): no-op if already evaluated, otherwise asserts the
allocated flag and writes Op::apply of the two operands into the result
storage, setting evaluated. -/
def evaluate (f : A → B → R) (e : TemporaryBinaryExpr A B R) :
    Option (TemporaryBinaryExpr A B R) :=
  if e.evaluated then some e
  else if e.allocated then
    some ⟨e.a_mem, e.b_mem, e.c_mem.write (f e.a_mem e.b_mem), e.allocated, true⟩
  else none

/-- allocate_temporary(): in the forced instantiation only sets
allocated; in the unforced one fills a still-null slot with
Op::allocate of the operands, then sets allocated. -/
def allocate_temporary (alloc : A → B → R) (e : TemporaryBinaryExpr A B R) :
    TemporaryBinaryExpr A B R :=
  match e.c_mem with
  | .forced c => ⟨e.a_mem, e.b_mem, .forced c, true, e.evaluated⟩
  | .unforced none =>
    ⟨e.a_mem, e.b_mem, .unforced (some (alloc e.a_mem e.b_mem)), true, e.evaluated⟩
  | .unforced (some c) => ⟨e.a_mem, e.b_mem, .unforced (some c), true, e.evaluated⟩

/-- result(): asserts the evaluated flag and the allocated flag and
returns get_result_op applied to the slot. -/
def result (e : TemporaryBinaryExpr A B R) : Option R :=
  if e.evaluated ∧ e.allocated then e.c_mem.get? else none

/-- alias(rhs): the disjunction of the two operands' alias tests, passed
in as aliasA and aliasB. -/
def alias_test (aliasA : A → E → Bool) (aliasB : B → E → Bool)
    (e : TemporaryBinaryExpr A B R) (rhs : E) : Bool :=
  aliasA e.a_mem rhs || aliasB e.b_mem rhs

/-- gpu_delegate_valid(): evaluated and allocated. -/
def gpu_delegate_valid (e : TemporaryBinaryExpr A B R) : Bool :=
  e.evaluated && e.allocated

/-- direct_evaluate(r): the overload enabled when Forced is not void runs
evaluate() and then assigns result() into the destination; the overload
enabled when Forced is void runs Op::apply of the operands straight into
the destination. -/
def direct_evaluate (f : A → B → R) (e : TemporaryBinaryExpr A B R) :
    Option (TemporaryBinaryExpr A B R × R) :=
  match e.c_mem with
  | .forced _ =>
    match e.evaluate f with
    | some e₂ =>
      match e₂.result with
      | some v => some (e₂, v)
      | none => none
    | none => none
  | .unforced _ => some (e, f e.a_mem e.b_mem)

end TemporaryBinaryExpr

/-! ## Spec-side definition for the direct_evaluate claim -/

/-- The behaviour that the specification ascribes to direct_evaluate,
written from the spec's words for comparison with the source definition:
a forced expression calls the operator's apply straight into the given
destination with no intermediate copy through the internal slot and no
state change; an unforced expression first runs the full evaluate() into
the internal slot and then copies the internal result into the
destination. -/
def direct_evaluate_spec (f : A → R) (e : TemporaryUnaryExpr A R) :
    Option (TemporaryUnaryExpr A R × R) :=
  match e.c_mem with
  | .forced _ => some (e, f e.a_mem)
  | .unforced _ =>
    match e.evaluate f with
    | some e₂ =>
      match e₂.result with
      | some v => some (e₂, v)
      | none => none
    | none => none

/-! ## Reachable lifecycle states -/

/-- Reachable states of a temporary_unary_expr under a fixed operator
(apply rule f and allocate rule al): closure of the two constructors under
copy construction, move construction (both resulting instances),
allocate_temporary and successful evaluate. -/
inductive ReachableU (f : A → R) (al : A → R) : TemporaryUnaryExpr A R → Prop where
  | ctor_plain (a : A) : ReachableU f al (TemporaryUnaryExpr.mk_plain a)
  | ctor_forced (a : A) (c : R) : ReachableU f al (TemporaryUnaryExpr.mk_forced a c)
  | copy {e} : ReachableU f al e → ReachableU f al e.copy_ctor
  | move_to {e} : ReachableU f al e → ReachableU f al e.move_ctor.1
  | move_from {e} : ReachableU f al e → ReachableU f al e.move_ctor.2
  | alloc_step {e} : ReachableU f al e → ReachableU f al (e.allocate_temporary al)
  | eval_step {e e₂} : ReachableU f al e → e.evaluate f = some e₂ → ReachableU f al e₂

/-- Reachable states of a temporary_binary_expr under a fixed operator:
closure of the two constructors under copy construction, move construction
(both resulting instances), allocate_temporary and successful evaluate. -/
inductive ReachableB (g : A → B → R) (al : A → B → R) :
    TemporaryBinaryExpr A B R → Prop where
  | ctor_plain (a : A) (b : B) : ReachableB g al (TemporaryBinaryExpr.mk_plain a b)
  | ctor_forced (a : A) (b : B) (c : R) :
      ReachableB g al (TemporaryBinaryExpr.mk_forced a b c)
  | copy {e} : ReachableB g al e → ReachableB g al e.copy_ctor
  | move_to {e} : ReachableB g al e → ReachableB g al e.move_ctor.1
  | move_from {e} : ReachableB g al e → ReachableB g al e.move_ctor.2
  | alloc_step {e} : ReachableB g al e → ReachableB g al (e.allocate_temporary al)
  | eval_step {e e₂} : ReachableB g al e → e.evaluate g = some e₂ → ReachableB g al e₂

/-! ## Helper lemmas -/

/-- A left fold of multiplication starting from an accumulator equals the
accumulator times the foldr product mul_all: the cached m of the dynamic
transformers is the plain product of the repeat counts. -/
theorem foldl_mul_eq (l : List Nat) (a : Nat) :
    List.foldl (fun x y => x * y) a l = a * mul_all l := by
  induction l generalizing a with
  | nil => simp [mul_all]
  | cons h t ih =>
    simp only [List.foldl, mul_all, List.foldr] at *
    rw [ih]
    ring

/-! ## Claim theorems -/

/-- C2: for every repeat transformer over a sub-expression of size N with
repeat product M and every flat index i in the expanded space, the
left-repeat transformer's flat read at i returns the sub-expression's
element at i mod N and the right-repeat transformer's flat read at i
returns the sub-expression's element at i / M; and a left-repeat with
repeat pack 2, 3 flattens to a length-6N sequence whose element k equals
sub-expression element k mod N. -/
theorem rep_transformer_flat_reads (α : Type) (tl : RepLTransformer α)
    (tr : RepRTransformer α) (i : Nat)
    (hl : i < tl.size) (hr : i < tr.size) :
    tl.read i = tl.sub (i % tl.subSize) ∧
    tr.read i = tr.sub (i / mul_all tr.reps) ∧
    (tl.reps = [2, 3] →
      tl.flatten.length = 6 * tl.subSize ∧
      ∀ k, k < 6 * tl.subSize → tl.flatten.get? k = some (tl.sub (k % tl.subSize))) := by
  have hsix : ∀ s : Nat, mul_all [2, 3] * s = 6 * s := fun s => rfl
  refine ⟨rfl, rfl, fun hreps => ?_⟩
  have hsize : tl.size = 6 * tl.subSize := by
    rw [RepLTransformer.size, hreps, hsix]
  constructor
  · simp [RepLTransformer.flatten, hsize]
  · intro k hk
    have hk' : k < tl.size := by omega
    simp [RepLTransformer.flatten, List.getElem?_map, List.getElem?_range,
      RepLTransformer.read, hk']

/-- C2 witness: the claim instantiated for a size-2 identity-valued
sub-expression, a left-repeat with pack 2, 3 and a right-repeat with pack
2, at flat index 7 resp. 3. -/
theorem rep_transformer_flat_reads_witness :
    (⟨2, fun n => (n : Int), [2, 3]⟩ : RepLTransformer Int).read 3 =
      (⟨2, fun n => (n : Int), [2, 3]⟩ : RepLTransformer Int).sub (3 % 2) :=
  (rep_transformer_flat_reads Int ⟨2, fun n => (n : Int), [2, 3]⟩
    ⟨2, fun n => (n : Int), [2]⟩ 3 (by decide) (by decide)).1

/-- Concrete transformer refuting C3: a static right-repeat transformer
over a size-2 identity-valued sub-expression with one new dimension of
extent 2; its flat read at 1 is sub-element 0 (the index divided by the
repeat product), not sub-element 1 mod subSize as the claim states. -/
theorem rep_r_read_is_not_modulo :
    ¬ ((⟨2, fun n => (n : Int), [2]⟩ : RepRTransformer Int).read 1 =
        (⟨2, fun n => (n : Int), [2]⟩ : RepRTransformer Int).sub
          (1 % (⟨2, fun n => (n : Int), [2]⟩ : RepRTransformer Int).subSize)) := by
  decide

/-- C3 amended: for every dynamic or static repeat transformer and every
flat index i in the expanded space, reading a right/outer-repeat
transformer at i equals reading the sub-expression at i divided by the
repeat product, and reading a left/inner-repeat transformer at i equals
reading the sub-expression at i mod subSize; for the dynamic transformers
the cached m built at construction is exactly the repeat product. -/
theorem repeat_transformer_index_amended (α : Type)
    (tr : RepRTransformer α) (tl : RepLTransformer α)
    (ssr ssl : Nat) (fr fl : Nat → α) (rr rl : List Nat) (i : Nat)
    (h1 : i < tr.size) (h2 : i < tl.size)
    (h3 : i < (DynRepRTransformer.make ssr fr rr).size)
    (h4 : i < (DynRepLTransformer.make ssl fl rl).size) :
    tr.read i = tr.sub (i / mul_all tr.reps) ∧
    tl.read i = tl.sub (i % tl.subSize) ∧
    (DynRepRTransformer.make ssr fr rr).read i = fr (i / mul_all rr) ∧
    (DynRepLTransformer.make ssl fl rl).read i = fl (i % ssl) := by
  refine ⟨rfl, rfl, ?_, rfl⟩
  simp [DynRepRTransformer.read, DynRepRTransformer.make, foldl_mul_eq]

/-- C3 amended witness: the amended claim instantiated at flat index 5
for concrete static and dynamic transformers over size-3 identity-valued
sub-expressions with repeat counts 2 resp. 2, 2. -/
theorem repeat_transformer_index_amended_witness :
    (DynRepRTransformer.make 3 (fun n => (n : Int)) [2, 2]).read 5 =
      (fun n => (n : Int)) (5 / mul_all [2, 2]) :=
  (repeat_transformer_index_amended Int ⟨3, fun n => (n : Int), [2]⟩
    ⟨3, fun n => (n : Int), [2]⟩ 3 3 (fun n => (n : Int)) (fun n => (n : Int))
    [2, 2] [2, 2] 5 (by decide) (by decide) (by decide) (by decide)).2.2.1

/-- C4: for every temporary expression (unary or binary), result() fails
the debug assertion (modelled as none) whenever evaluation or allocation
has not completed, and returns the materialized slot value exactly when
both the evaluated and allocated flags are true. -/
theorem result_requires_both_flags (A B R : Type)
    (e : TemporaryUnaryExpr A R) (eb : TemporaryBinaryExpr A B R) :
    (e.evaluated = true ∧ e.allocated = true → e.result = e.c_mem.get?) ∧
    (¬(e.evaluated = true ∧ e.allocated = true) → e.result = none) ∧
    (eb.evaluated = true ∧ eb.allocated = true → eb.result = eb.c_mem.get?) ∧
    (¬(eb.evaluated = true ∧ eb.allocated = true) → eb.result = none) :=
  ⟨fun h => by rw [TemporaryUnaryExpr.result, if_pos h],
   fun h => by rw [TemporaryUnaryExpr.result, if_neg h],
   fun h => by rw [TemporaryBinaryExpr.result, if_pos h],
   fun h => by rw [TemporaryBinaryExpr.result, if_neg h]⟩

/-- C4 witness: a fully evaluated forced unary expression returns its slot
value, instantiated concretely. -/
theorem result_requires_both_flags_witness :
    TemporaryUnaryExpr.result (⟨5, DataSlot.forced 99, true, true⟩ :
      TemporaryUnaryExpr Int Int) =
    DataSlot.get? (DataSlot.forced (99 : Int)) :=
  (result_requires_both_flags Int Int Int ⟨5, DataSlot.forced 99, true, true⟩
    (TemporaryBinaryExpr.mk_plain 0 0)).1 ⟨rfl, rfl⟩

/-- C5: for every allocated temporary expression (unary or binary),
evaluate() is idempotent: running it twice gives the same state as running
it once, and when the evaluated flag is already set a call is a no-op that
does not invoke the operator's apply again. -/
theorem evaluate_idempotent (A B R : Type) (f : A → R) (g : A → B → R)
    (e : TemporaryUnaryExpr A R) (eb : TemporaryBinaryExpr A B R)
    (h : e.allocated = true) (hb : eb.allocated = true) :
    ((e.evaluate f).bind (TemporaryUnaryExpr.evaluate f) = e.evaluate f) ∧
    (e.evaluated = true → e.evaluate f = some e) ∧
    ((eb.evaluate g).bind (TemporaryBinaryExpr.evaluate g) = eb.evaluate g) ∧
    (eb.evaluated = true → eb.evaluate g = some eb) := by
  refine ⟨?_, fun hev => ?_, ?_, fun hev => ?_⟩
  · by_cases hev : e.evaluated = true
    · simp [TemporaryUnaryExpr.evaluate, hev]
    · simp [TemporaryUnaryExpr.evaluate, hev, h]
  · simp [TemporaryUnaryExpr.evaluate, hev]
  · by_cases hev : eb.evaluated = true
    · simp [TemporaryBinaryExpr.evaluate, hev]
    · simp [TemporaryBinaryExpr.evaluate, hev, hb]
  · simp [TemporaryBinaryExpr.evaluate, hev]

/-- C5 witness: idempotence of evaluate at a concrete allocated unforced
unary expression and a concrete allocated binary expression. -/
theorem evaluate_idempotent_witness :
    (TemporaryUnaryExpr.evaluate (fun x => x + 1)
        (⟨5, DataSlot.unforced (some 0), true, false⟩ : TemporaryUnaryExpr Int Int)).bind
      (TemporaryUnaryExpr.evaluate (fun x => x + 1)) =
    TemporaryUnaryExpr.evaluate (fun x => x + 1)
      (⟨5, DataSlot.unforced (some 0), true, false⟩ : TemporaryUnaryExpr Int Int) :=
  (evaluate_idempotent Int Int Int (fun x => x + 1) (fun x y => x + y)
    ⟨5, DataSlot.unforced (some 0), true, false⟩
    ⟨1, 2, DataSlot.unforced (some 0), true, false⟩ rfl rfl).1

/-- C6: for every temporary expression in any lifecycle state, move
construction resets the moved-from instance's evaluated flag to false
while leaving its allocated flag unchanged, and the moved-to instance
keeps the pre-move evaluated flag and has the same result() as the
pre-move instance. -/
theorem move_ctor_flags (A B R : Type)
    (e : TemporaryUnaryExpr A R) (eb : TemporaryBinaryExpr A B R) :
    (e.move_ctor.2.evaluated = false ∧ e.move_ctor.2.allocated = e.allocated ∧
     e.move_ctor.1.evaluated = e.evaluated ∧ e.move_ctor.1.result = e.result) ∧
    (eb.move_ctor.2.evaluated = false ∧ eb.move_ctor.2.allocated = eb.allocated ∧
     eb.move_ctor.1.evaluated = eb.evaluated ∧ eb.move_ctor.1.result = eb.result) :=
  ⟨⟨rfl, rfl, rfl, rfl⟩, ⟨rfl, rfl, rfl, rfl⟩⟩

/-- C7: for every binary temporary expression and every expression x,
alias(x) is exactly the disjunction of the two operands' alias results. -/
theorem binary_alias_disjunction (A B R E : Type)
    (aliasA : A → E → Bool) (aliasB : B → E → Bool)
    (e : TemporaryBinaryExpr A B R) (x : E) :
    e.alias_test aliasA aliasB x = (aliasA e.a_mem x || aliasB e.b_mem x) ∧
    (e.alias_test aliasA aliasB x = true ↔
      (aliasA e.a_mem x = true ∨ aliasB e.b_mem x = true)) :=
  ⟨rfl, by simp [TemporaryBinaryExpr.alias_test]⟩

/-- C8: for every binary temporary expression whose one operand is a pure
generator and whose other operand is concrete, the resolved storage order
is the concrete operand's storage order. -/
theorem binary_storage_order_prefers_concrete (ta tb : Traits) :
    (ta.is_generator = true → tb.is_generator = false →
      (temporary_binary_traits ta tb).storage_order = tb.storage_order) ∧
    (tb.is_generator = true → ta.is_generator = false →
      (temporary_binary_traits ta tb).storage_order = ta.storage_order) := by
  constructor
  · intro h _
    simp [temporary_binary_traits, h]
  · intro _ h
    simp [temporary_binary_traits, h]

/-- C8 witness: a generator-valued left operand with column-major order
combined with a concrete row-major right operand resolves to row-major. -/
theorem binary_storage_order_prefers_concrete_witness :
    (temporary_binary_traits
        ⟨true, false, false, true, true, false, false, Order.column_major, fun _ => true⟩
        ⟨true, false, true, true, false, false, false, Order.row_major,
          fun _ => true⟩).storage_order = Order.row_major :=
  (binary_storage_order_prefers_concrete
    ⟨true, false, false, true, true, false, false, Order.column_major, fun _ => true⟩
    ⟨true, false, true, true, false, false, false, Order.row_major,
      fun _ => true⟩).1 rfl rfl

/-- Counterexample to C9: a unary temporary expression over a sub-node
that does not certify vectorizability for the AVX width class is still
reported vectorizable by the etl_traits specialization, which is the alias
template std::true_type regardless of the operand. -/
theorem temporary_vectorizable_not_conservative :
    (temporary_unary_traits
        ⟨true, false, true, true, false, false, false, Order.row_major,
          fun _ => false⟩).vectorizable VectorMode.avx = true ∧
    (⟨true, false, true, true, false, false, false, Order.row_major,
        fun _ => false⟩ : Traits).vectorizable VectorMode.avx = false :=
  ⟨rfl, rfl⟩

/-- C9 amended: the temporary-expression trait specializations report
vectorizable unconditionally true for every width class, independent of
the participating nodes, and the repeat-transformer trait specializations
report it unconditionally false. -/
theorem temporary_vectorizable_amended (ta tb ts : Traits) (v : VectorMode) :
    (temporary_unary_traits ta).vectorizable v = true ∧
    (temporary_binary_traits ta tb).vectorizable v = true ∧
    (rep_r_traits ts).vectorizable v = false ∧
    (rep_l_traits ts).vectorizable v = false ∧
    (dyn_rep_r_traits ts).vectorizable v = false ∧
    (dyn_rep_l_traits ts).vectorizable v = false :=
  ⟨rfl, rfl, rfl, rfl, rfl, rfl⟩

/-- Counterexample to C1: on the freshly constructed forced unary
expression over operand 5 with pre-bound destination 99 and operator
x + 1, the source direct_evaluate runs evaluate() into the internal slot
and then copies (reaching a state with the evaluated flag set and the slot
overwritten), whereas the behaviour the claim describes applies straight
into the destination and leaves the expression untouched; and on the
freshly constructed unforced expression the source applies straight into
the destination while the claimed behaviour would run evaluate() and fail
its allocation assertion. -/
theorem direct_evaluate_modes_counterexample :
    (TemporaryUnaryExpr.direct_evaluate (fun x => x + 1)
        (TemporaryUnaryExpr.mk_forced (5 : Int) (99 : Int)) ≠
      direct_evaluate_spec (fun x => x + 1)
        (TemporaryUnaryExpr.mk_forced (5 : Int) (99 : Int))) ∧
    (TemporaryUnaryExpr.direct_evaluate (fun x => x + 1)
        (TemporaryUnaryExpr.mk_plain (5 : Int)) ≠
      direct_evaluate_spec (fun x => x + 1)
        (TemporaryUnaryExpr.mk_plain (5 : Int))) :=
  ⟨by decide, by decide⟩

/-- C1 amended: for every temporary expression (unary or binary),
direct_evaluate(destination) behaves as follows: if the expression is
unforced, it calls the operator's apply straight into the given
destination, touching neither the internal slot nor the lifecycle flags;
if the expression is forced (a destination was pre-bound at construction),
it first runs the full evaluate() into the internal slot (a no-op when
already evaluated, an assertion failure when neither evaluated nor
allocated) and then copies the internal result into the given
destination. -/
theorem direct_evaluate_modes_amended (A B R : Type) (f : A → R) (g : A → B → R)
    (e : TemporaryUnaryExpr A R) (eb : TemporaryBinaryExpr A B R) :
    ((e.c_mem.is_not_forced = true → e.direct_evaluate f = some (e, f e.a_mem)) ∧
     (∀ c, e.c_mem = DataSlot.forced c →
       (e.evaluated = true → e.allocated = true → e.direct_evaluate f = some (e, c)) ∧
       (e.evaluated = false → e.allocated = true →
         e.direct_evaluate f =
           some (⟨e.a_mem, DataSlot.forced (f e.a_mem), e.allocated, true⟩, f e.a_mem)) ∧
       (e.evaluated = false → e.allocated = false → e.direct_evaluate f = none))) ∧
    ((eb.c_mem.is_not_forced = true →
       eb.direct_evaluate g = some (eb, g eb.a_mem eb.b_mem)) ∧
     (∀ c, eb.c_mem = DataSlot.forced c →
       (eb.evaluated = true → eb.allocated = true →
         eb.direct_evaluate g = some (eb, c)) ∧
       (eb.evaluated = false → eb.allocated = true →
         eb.direct_evaluate g =
           some (⟨eb.a_mem, eb.b_mem, DataSlot.forced (g eb.a_mem eb.b_mem),
             eb.allocated, true⟩, g eb.a_mem eb.b_mem)) ∧
       (eb.evaluated = false → eb.allocated = false →
         eb.direct_evaluate g = none))) := by
  constructor
  · constructor
    · intro hnf
      cases hc : e.c_mem with
      | unforced c => simp [TemporaryUnaryExpr.direct_evaluate, hc]
      | forced c => simp [DataSlot.is_not_forced, hc] at hnf
    · intro c hc
      refine ⟨fun hev hal => ?_, fun hev hal => ?_, fun hev hal => ?_⟩ <;>
        simp [TemporaryUnaryExpr.direct_evaluate, hc, TemporaryUnaryExpr.evaluate,
          TemporaryUnaryExpr.result, hev, hal, DataSlot.write, DataSlot.get?]
  · constructor
    · intro hnf
      cases hc : eb.c_mem with
      | unforced c => simp [TemporaryBinaryExpr.direct_evaluate, hc]
      | forced c => simp [DataSlot.is_not_forced, hc] at hnf
    · intro c hc
      refine ⟨fun hev hal => ?_, fun hev hal => ?_, fun hev hal => ?_⟩ <;>
        simp [TemporaryBinaryExpr.direct_evaluate, hc, TemporaryBinaryExpr.evaluate,
          TemporaryBinaryExpr.result, hev, hal, DataSlot.write, DataSlot.get?]

/-- C1 amended witness: for the freshly constructed forced unary
expression over operand 5 with destination 99 and operator x + 1,
direct_evaluate evaluates into the pre-bound slot and copies 6 into the
destination. -/
theorem direct_evaluate_modes_amended_witness :
    TemporaryUnaryExpr.direct_evaluate (fun x => x + 1)
      (TemporaryUnaryExpr.mk_forced (5 : Int) (99 : Int)) =
    some (⟨5, DataSlot.forced 6, true, true⟩, 6) :=
  ((direct_evaluate_modes_amended Int Int Int (fun x => x + 1) (fun x y => x + y)
      (TemporaryUnaryExpr.mk_forced 5 99)
      (TemporaryBinaryExpr.mk_plain 0 0)).1.2 99 rfl).2.1 rfl rfl

/-- C10: for every temporary expression in every state reachable through
construction, copy, move, allocate_temporary and evaluate, the evaluated
flag implies the allocated flag, and consequently gpu_delegate_valid
(evaluated and allocated) coincides with the evaluated flag alone. -/
theorem evaluated_implies_allocated (A B R : Type) (f al : A → R)
    (g alb : A → B → R) :
    (∀ e : TemporaryUnaryExpr A R, ReachableU f al e →
      (e.evaluated = true → e.allocated = true) ∧
      e.gpu_delegate_valid = e.evaluated) ∧
    (∀ e : TemporaryBinaryExpr A B R, ReachableB g alb e →
      (e.evaluated = true → e.allocated = true) ∧
      e.gpu_delegate_valid = e.evaluated) := by
  have keyU : ∀ e : TemporaryUnaryExpr A R, ReachableU f al e →
      (e.evaluated = true → e.allocated = true) := by
    intro e h
    induction h with
    | ctor_plain a => intro h; cases h
    | ctor_forced a c => intro _; rfl
    | copy _ ih => exact ih
    | move_to _ ih => exact ih
    | move_from _ _ => intro h; cases h
    | alloc_step _ _ =>
      intro _
      unfold TemporaryUnaryExpr.allocate_temporary
      split <;> rfl
    | eval_step h heq ih =>
      rw [TemporaryUnaryExpr.evaluate] at heq
      split at heq
      · cases heq
        exact ih
      · split at heq
        · cases heq
          intro _
          assumption
        · cases heq
  have keyB : ∀ e : TemporaryBinaryExpr A B R, ReachableB g alb e →
      (e.evaluated = true → e.allocated = true) := by
    intro e h
    induction h with
    | ctor_plain a b => intro h; cases h
    | ctor_forced a b c => intro _; rfl
    | copy _ ih => exact ih
    | move_to _ ih => exact ih
    | move_from _ _ => intro h; cases h
    | alloc_step _ _ =>
      intro _
      unfold TemporaryBinaryExpr.allocate_temporary
      split <;> rfl
    | eval_step h heq ih =>
      rw [TemporaryBinaryExpr.evaluate] at heq
      split at heq
      · cases heq
        exact ih
      · split at heq
        · cases heq
          intro _
          assumption
        · cases heq
  refine ⟨fun e h => ⟨keyU e h, ?_⟩, fun e h => ⟨keyB e h, ?_⟩⟩
  · rw [TemporaryUnaryExpr.gpu_delegate_valid]
    cases hev : e.evaluated with
    | false => simp
    | true => simp [keyU e h hev]
  · rw [TemporaryBinaryExpr.gpu_delegate_valid]
    cases hev : e.evaluated with
    | false => simp
    | true => simp [keyB e h hev]

/-- C10 witness: the invariant applied to the concrete reachable state
obtained by allocating and then evaluating a fresh unforced unary
expression over operand 5 with operator x + 1 and slot allocator constant
0. -/
theorem evaluated_implies_allocated_witness :
    TemporaryUnaryExpr.gpu_delegate_valid
      (TemporaryUnaryExpr.allocate_temporary (fun _ => (0 : Int))
        (TemporaryUnaryExpr.mk_plain (5 : Int))) =
    TemporaryUnaryExpr.evaluated
      (TemporaryUnaryExpr.allocate_temporary (fun _ => (0 : Int))
        (TemporaryUnaryExpr.mk_plain (5 : Int))) :=
  ((evaluated_implies_allocated Int Int Int (fun x => x + 1) (fun _ => 0)
      (fun x y => x + y) (fun _ _ => 0)).1
    (TemporaryUnaryExpr.allocate_temporary (fun _ => 0)
      (TemporaryUnaryExpr.mk_plain 5))
    (ReachableU.alloc_step (ReachableU.ctor_plain 5))).2

end Etl
